import Mathlib

/-!
Verification of the pgsnap script parser and replay driver (src/script.go).

The embedding is shallow. JSON decoding (encoding/json) and the wire
libraries (pgproto3, pgmock) are external collaborators of this core, so
they are modelled abstractly by exactly the behaviour the code observes:
a script-line payload is observed through the two json.Unmarshal calls,
pgmock's fixed handshake step list is an opaque fixed list, and the
replay driver is a trace-producing function over an abstract environment
(results of Accept, SetDeadline, script.Run and be.Receive).
-/

namespace Pgsnap

/-- Backend (server-to-client) message kinds: the fixed table the switch in
unmarshalB resolves the Type field against. -/
inductive BMsgType
  | AuthenticationOk
  | BackendKeyData
  | ParseComplete
  | ParameterDescription
  | RowDescription
  | ReadyForQuery
  | BindComplete
  | DataRow
  | CommandComplete
  | EmptyQueryResponse
  | NoData
  | ErrorResponse
deriving DecidableEq

/-- Frontend (client-to-server) message kinds: the fixed table the switch in
unmarshalF resolves the Type field against. -/
inductive FMsgType
  | StartupMessage
  | Parse
  | Query
  | Describe
  | Sync
  | Bind
  | Execute
  | Terminate
deriving DecidableEq

/-- Abstract model of the JSON payload b[1:] of a script line. JSON decoding
is external, so a payload is modelled by what the two json.Unmarshal calls in
the code observe: `typeName` is the value of t.Type after the first,
error-ignored unmarshal into struct{Type string} (the empty string when the
payload is not valid JSON or carries no Type field, since Go's
json.Unmarshal leaves the target untouched on failure); `fullDecodeError` is
the error of the second unmarshal of the whole payload into the message
value resolved from `typeName` (none when that decode succeeds). -/
structure RawPayload where
  typeName : String
  fullDecodeError : Option String
deriving DecidableEq

/-- A pgproto3.BackendMessage as produced by unmarshalB: its concrete dynamic
kind plus the payload it was decoded from. -/
structure BackendMessage where
  type : BMsgType
  payload : RawPayload
deriving DecidableEq

/-- A pgproto3.FrontendMessage as produced by unmarshalF. -/
structure FrontendMessage where
  type : FMsgType
  payload : RawPayload
deriving DecidableEq

/-- A pgmock script step: either one of the opaque fixed handshake steps, or
pgmock.SendMessage / pgmock.ExpectMessage applied to a decoded message. -/
inductive Step
  | handshake (i : Nat)
  | send (msg : BackendMessage)
  | expect (msg : FrontendMessage)
deriving DecidableEq

/-- pgmock.Script: the ordered step list (field name as in Go). -/
structure Script where
  Steps : List Step
deriving DecidableEq

/-- Model of the external pgmock.AcceptUnauthenticatedConnRequestSteps():
a fixed list of four handshake steps (expect startup, send
authentication-ok, send backend key data, send ready-for-query), modelled
opaquely since their content lives outside this repository. -/
def AcceptUnauthenticatedConnRequestSteps : List Step :=
  [Step.handshake 0, Step.handshake 1, Step.handshake 2, Step.handshake 3]

/-- Errors produced while parsing a script line. -/
inductive ParseError
  | jsonDecode (e : String)
  | unknownTypeB (name : String)
  | unknownTypeF (name : String)
deriving DecidableEq

/-- The Go error text of a ParseError: fmt.Errorf("B: unknown type `%s`", ...)
and fmt.Errorf("F: unknown type `%s`", ...); a jsonDecode error carries the
text of the json.Unmarshal error. -/
def ParseError.message : ParseError → String
  | .jsonDecode e => e
  | .unknownTypeB name => "B: unknown type `" ++ name ++ "`"
  | .unknownTypeF name => "F: unknown type `" ++ name ++ "`"

/-- Errors getScript can report: EmptyScript = errors.New("script is empty"),
or a parse error passed through from readScript. -/
inductive SnapError
  | emptyScript
  | parse (e : ParseError)
deriving DecidableEq

/-- The switch over t.Type in unmarshalB (case strings exactly as in Go). -/
def resolveB : String → Option BMsgType
  | "AuthenticationOK" => some .AuthenticationOk
  | "BackendKeyData" => some .BackendKeyData
  | "ParseComplete" => some .ParseComplete
  | "ParameterDescription" => some .ParameterDescription
  | "RowDescription" => some .RowDescription
  | "ReadyForQuery" => some .ReadyForQuery
  | "BindComplete" => some .BindComplete
  | "DataRow" => some .DataRow
  | "CommandComplete" => some .CommandComplete
  | "EmptyQueryResponse" => some .EmptyQueryResponse
  | "NoData" => some .NoData
  | "ErrorResponse" => some .ErrorResponse
  | _ => none

/-- The switch over t.Type in unmarshalF. -/
def resolveF : String → Option FMsgType
  | "StartupMessage" => some .StartupMessage
  | "Parse" => some .Parse
  | "Query" => some .Query
  | "Describe" => some .Describe
  | "Sync" => some .Sync
  | "Bind" => some .Bind
  | "Execute" => some .Execute
  | "Terminate" => some .Terminate
  | _ => none

/-- unmarshalB: ignore the error of the first unmarshal (typeName is its
result), resolve the type name, fail on an unknown name, then propagate the
error of the full decode into the resolved message. -/
def unmarshalB (src : RawPayload) : Except ParseError BackendMessage :=
  match resolveB src.typeName with
  | none => .error (.unknownTypeB src.typeName)
  | some ty =>
    match src.fullDecodeError with
    | some e => .error (.jsonDecode e)
    | none => .ok ⟨ty, src⟩

/-- unmarshalF: resolve the type name, fail on an unknown name; the error of
the full decode (`_ = json.Unmarshal(src, o)`) is discarded, so the possibly
partially populated message is returned even when fullDecodeError is set. -/
def unmarshalF (src : RawPayload) : Except ParseError FrontendMessage :=
  match resolveF src.typeName with
  | none => .error (.unknownTypeF src.typeName)
  | some ty => .ok ⟨ty, src⟩

/-- One line delivered by bufio.Scanner: either shorter than 2 bytes (empty
or a single byte), or a first byte (the direction tag) plus the rest of the
line as an abstract payload. -/
inductive RawLine
  | empty
  | single (c : Char)
  | tagged (tag : Char) (payload : RawPayload)
deriving DecidableEq

/-- The scanner loop of readScript: lines shorter than 2 bytes are skipped,
a line starting with an unrecognised byte is skipped, a B line appends a
SendMessage step, an F line an ExpectMessage step, and the first unmarshal
error aborts the whole parse. -/
def readScriptLoop (lines : List RawLine) (steps : List Step) :
    Except ParseError (List Step) :=
  match lines with
  | [] => .ok steps
  | line :: rest =>
    match line with
    | .empty => readScriptLoop rest steps
    | .single _ => readScriptLoop rest steps
    | .tagged tag payload =>
      if tag = 'B' then
        match unmarshalB payload with
        | .error e => .error e
        | .ok msg => readScriptLoop rest (steps ++ [Step.send msg])
      else if tag = 'F' then
        match unmarshalF payload with
        | .error e => .error e
        | .ok msg => readScriptLoop rest (steps ++ [Step.expect msg])
      else
        readScriptLoop rest steps

/-- readScript: start the script from the fixed handshake step list and scan
the file line by line. -/
def readScript (lines : List RawLine) : Except ParseError Script :=
  match readScriptLoop lines AcceptUnauthenticatedConnRequestSteps with
  | .error e => .error e
  | .ok steps => .ok ⟨steps⟩

/-- getScript, modelled from the point the script file has been scanned into
lines (getFile, the script-file discovery, is outside this core): on a parse
error return no script and the error; when the built script has no steps
beyond the handshake (len(Steps) < len(prefix)+1), return the script
together with EmptyScript; otherwise the script alone. The Go pair
(*pgmock.Script, error) is modelled as a pair of options. -/
def getScript (lines : List RawLine) : Option Script × Option SnapError :=
  match readScript lines with
  | .error e => (none, some (.parse e))
  | .ok script =>
    if script.Steps.length < AcceptUnauthenticatedConnRequestSteps.length + 1 then
      (some script, some .emptyScript)
    else
      (some script, none)

/-- The steps a single line contributes to a successful parse. -/
def lineSteps (line : RawLine) : List Step :=
  match line with
  | .tagged tag payload =>
    if tag = 'B' then
      match unmarshalB payload with
      | .ok msg => [Step.send msg]
      | .error _ => []
    else if tag = 'F' then
      match unmarshalF payload with
      | .ok msg => [Step.expect msg]
      | .error _ => []
    else []
  | _ => []

/-- Whether a line parses without aborting the scan. -/
def lineOk (line : RawLine) : Bool :=
  match line with
  | .tagged tag payload =>
    if tag = 'B' then
      match unmarshalB payload with
      | .ok _ => true
      | .error _ => false
    else if tag = 'F' then
      match unmarshalF payload with
      | .ok _ => true
      | .error _ => false
    else true
  | _ => true

/-- The steps contributed by a list of lines, in input order. -/
def stepsOfLines (lines : List RawLine) : List Step :=
  match lines with
  | [] => []
  | line :: rest => lineSteps line ++ stepsOfLines rest

/-- The loop body of waitTilSync: `i` is the number of receive attempts
performed so far, `fuel` is 10 - i (the remaining budget of the Go loop
`for i := 0; i < 10; i++`). Returns the total number of receive attempts
performed: a receive error only consumes the attempt and continues, a Sync
message stops the loop early, anything else continues. -/
def waitTilSyncFrom (receive : Nat → Except String FMsgType) :
    Nat → Nat → Nat
  | i, 0 => i
  | i, fuel + 1 =>
    match receive i with
    | .error _ => waitTilSyncFrom receive (i + 1) fuel
    | .ok m =>
      if m = FMsgType.Sync then i + 1
      else waitTilSyncFrom receive (i + 1) fuel

/-- waitTilSync: the number of be.Receive() attempts the drain loop performs,
given the result of the i-th receive. -/
def waitTilSync (receive : Nat → Except String FMsgType) : Nat :=
  waitTilSyncFrom receive 0 10

/-- One observable action of acceptConnForScrpt, in program order:
a be.Receive() attempt of the drain loop, a be.Send of an ErrorResponse
(with its Severity, SeverityUnlocalized and Message fields) or of a
ReadyForQuery (with its TxStatus byte), the SetLinger(0) force-close
preparation, a write to the error channel, a write to the done channel,
the deferred conn.Close(), or the panic of the conn.(*net.TCPConn)
type assertion. -/
inductive DriverEvent
  | recv
  | sendErrorResponse (severity severityUnlocalized message : String)
  | sendReadyForQuery (txStatus : Char)
  | setLinger0
  | notifyErr (e : String)
  | notifyDone
  | closeConn
  | panicTCPAssert
deriving DecidableEq

/-- The abstract environment one run of acceptConnForScrpt executes in: the
error of l.Accept (none on success), of conn.SetDeadline, of script.Run,
the result of the i-th be.Receive() of the drain loop, and whether the
accepted connection's dynamic type is *net.TCPConn. -/
structure Env where
  acceptErr : Option String
  deadlineErr : Option String
  runErr : Option String
  receive : Nat → Except String FMsgType
  connIsTCP : Bool

/-- sendError: the first error-response / ready-for-query pair, with the
fixed diagnostic text prepended to the underlying error. -/
def sendErrorEvents (err : String) : List DriverEvent :=
  [DriverEvent.sendErrorResponse "ERROR" "ERROR" ("pgsnap: diff:\n" ++ err),
   DriverEvent.sendReadyForQuery 'I']

/-- What follows the two pairs on the failure path: when the connection is a
*net.TCPConn, SetLinger(0), the error-channel write, then the deferred
Close; otherwise the type assertion panics (the deferred Close still runs
during unwinding) and the error-channel write is never reached. -/
def closingEvents (env : Env) (err : String) : List DriverEvent :=
  if env.connIsTCP then
    [DriverEvent.setLinger0, DriverEvent.notifyErr err, DriverEvent.closeConn]
  else
    [DriverEvent.panicTCPAssert, DriverEvent.closeConn]

/-- acceptConnForScrpt as the trace of its observable actions: accept
failure reports the error and returns (no conn, no deferred close);
deadline failure reports and returns through the deferred close; a
successful run signals done; a failed run drains via waitTilSync, sends the
sendError pair, sends a second error-response / ready-for-query pair with
the bare error text, and closes. Errors of be.Send are ignored by the code
and so not part of the environment. -/
def acceptConnForScrpt (env : Env) : List DriverEvent :=
  match env.acceptErr with
  | some e => [DriverEvent.notifyErr e]
  | none =>
    match env.deadlineErr with
    | some e => [DriverEvent.notifyErr e, DriverEvent.closeConn]
    | none =>
      match env.runErr with
      | none => [DriverEvent.notifyDone, DriverEvent.closeConn]
      | some err =>
        List.replicate (waitTilSync env.receive) DriverEvent.recv
          ++ sendErrorEvents err
          ++ [DriverEvent.sendErrorResponse "ERROR" "ERROR" err,
              DriverEvent.sendReadyForQuery 'I']
          ++ closingEvents env err

/-- Whether an event is a be.Send to the client. -/
def isSendEvent : DriverEvent → Bool
  | .sendErrorResponse _ _ _ => true
  | .sendReadyForQuery _ => true
  | _ => false

/-- Whether an event is a write to one of the two notification channels. -/
def isNotification : DriverEvent → Bool
  | .notifyErr _ => true
  | .notifyDone => true
  | _ => false

/-- A successful scan appends exactly the steps of the lines, in order. -/
theorem readScriptLoop_ok_of_all (lines : List RawLine) :
    ∀ steps, (∀ l ∈ lines, lineOk l = true) →
      readScriptLoop lines steps = Except.ok (steps ++ stepsOfLines lines) := by
  induction lines with
  | nil => intro steps _; simp [readScriptLoop, stepsOfLines]
  | cons line rest ih =>
    intro steps h
    have hline : lineOk line = true := h line (List.mem_cons_self ..)
    have hrest : ∀ l ∈ rest, lineOk l = true :=
      fun l hl => h l (List.mem_cons_of_mem _ hl)
    cases line with
    | empty => simp [readScriptLoop, stepsOfLines, lineSteps, ih _ hrest]
    | single c => simp [readScriptLoop, stepsOfLines, lineSteps, ih _ hrest]
    | tagged tag payload =>
      by_cases hB : tag = 'B'
      · subst hB
        cases hu : unmarshalB payload with
        | error e => simp [lineOk, hu] at hline
        | ok msg =>
          simp [readScriptLoop, hu, stepsOfLines, lineSteps, ih _ hrest,
            List.append_assoc]
      · by_cases hF : tag = 'F'
        · subst hF
          cases hu : unmarshalF payload with
          | error e => simp [lineOk, hB, hu] at hline
          | ok msg =>
            simp [readScriptLoop, hB, hu, stepsOfLines, lineSteps, ih _ hrest,
              List.append_assoc]
        · simp [readScriptLoop, hB, hF, stepsOfLines, lineSteps, ih _ hrest]

/-- A successful scan means every line parsed without aborting. -/
theorem lineOk_of_readScriptLoop_ok (lines : List RawLine) :
    ∀ steps out, readScriptLoop lines steps = Except.ok out →
      ∀ l ∈ lines, lineOk l = true := by
  induction lines with
  | nil => intro steps out _ l hl; exact absurd hl (List.not_mem_nil l)
  | cons line rest ih =>
    intro steps out h l hl
    rcases List.mem_cons.1 hl with hhead | htail
    · subst hhead
      cases l with
      | empty => rfl
      | single c => rfl
      | tagged tag payload =>
        by_cases hB : tag = 'B'
        · subst hB
          cases hu : unmarshalB payload with
          | error e => simp [readScriptLoop, hu] at h
          | ok msg => simp [lineOk, hu]
        · by_cases hF : tag = 'F'
          · subst hF
            cases hu : unmarshalF payload with
            | error e => simp [readScriptLoop, hB, hu] at h
            | ok msg => simp [lineOk, hB, hu]
          · simp [lineOk, hB, hF]
    · cases line with
      | empty => exact ih _ _ (by simpa [readScriptLoop] using h) l htail
      | single c => exact ih _ _ (by simpa [readScriptLoop] using h) l htail
      | tagged tag payload =>
        by_cases hB : tag = 'B'
        · subst hB
          cases hu : unmarshalB payload with
          | error e => simp [readScriptLoop, hu] at h
          | ok msg =>
            exact ih _ _ (by simpa [readScriptLoop, hu] using h) l htail
        · by_cases hF : tag = 'F'
          · subst hF
            cases hu : unmarshalF payload with
            | error e => simp [readScriptLoop, hB, hu] at h
            | ok msg =>
              exact ih _ _ (by simpa [readScriptLoop, hB, hu] using h) l htail
          · exact ih _ _ (by simpa [readScriptLoop, hB, hF] using h) l htail

/-- Scanning past a block of lines that all parse adds their steps to the
accumulator. -/
theorem readScriptLoop_append_of_all (pre : List RawLine) :
    ∀ rest steps, (∀ l ∈ pre, lineOk l = true) →
      readScriptLoop (pre ++ rest) steps
        = readScriptLoop rest (steps ++ stepsOfLines pre) := by
  induction pre with
  | nil => intro rest steps _; simp [stepsOfLines]
  | cons line pr ih =>
    intro rest steps h
    have hline : lineOk line = true := h line (List.mem_cons_self ..)
    have hpr : ∀ l ∈ pr, lineOk l = true :=
      fun l hl => h l (List.mem_cons_of_mem _ hl)
    cases line with
    | empty => simp [readScriptLoop, stepsOfLines, lineSteps, ih _ _ hpr]
    | single c => simp [readScriptLoop, stepsOfLines, lineSteps, ih _ _ hpr]
    | tagged tag payload =>
      by_cases hB : tag = 'B'
      · subst hB
        cases hu : unmarshalB payload with
        | error e => simp [lineOk, hu] at hline
        | ok msg =>
          simp [readScriptLoop, hu, stepsOfLines, lineSteps, ih _ _ hpr,
            List.append_assoc]
      · by_cases hF : tag = 'F'
        · subst hF
          cases hu : unmarshalF payload with
          | error e => simp [lineOk, hB, hu] at hline
          | ok msg =>
            simp [readScriptLoop, hB, hu, stepsOfLines, lineSteps, ih _ _ hpr,
              List.append_assoc]
        · simp [readScriptLoop, hB, hF, stepsOfLines, lineSteps, ih _ _ hpr]

/-- What a successful readScript returns: the handshake steps followed by
the steps of the lines, and every line parsed. -/
theorem readScript_ok_steps (lines : List RawLine) (s : Script)
    (h : readScript lines = Except.ok s) :
    s.Steps = AcceptUnauthenticatedConnRequestSteps ++ stepsOfLines lines
    ∧ ∀ l ∈ lines, lineOk l = true := by
  cases hloop : readScriptLoop lines AcceptUnauthenticatedConnRequestSteps with
  | error e => simp [readScript, hloop] at h
  | ok out =>
    have hall : ∀ l ∈ lines, lineOk l = true :=
      lineOk_of_readScriptLoop_ok lines _ _ hloop
    have hout : out = AcceptUnauthenticatedConnRequestSteps ++ stepsOfLines lines := by
      have := readScriptLoop_ok_of_all lines AcceptUnauthenticatedConnRequestSteps hall
      rw [hloop] at this
      exact Except.ok.inj this
    have hs : s = ⟨out⟩ := by
      simp [readScript, hloop] at h
      exact h.symm
    exact ⟨by rw [hs, hout], hall⟩

/-- readScript succeeds on a fully parsing line list. -/
theorem readScript_ok_of_all (lines : List RawLine)
    (h : ∀ l ∈ lines, lineOk l = true) :
    readScript lines
      = Except.ok ⟨AcceptUnauthenticatedConnRequestSteps ++ stepsOfLines lines⟩ := by
  simp [readScript, readScriptLoop_ok_of_all lines _ h]

/-- The drain loop performs at most `i + fuel` total attempts. -/
theorem waitTilSyncFrom_le (receive : Nat → Except String FMsgType) :
    ∀ fuel i, waitTilSyncFrom receive i fuel ≤ i + fuel := by
  intro fuel
  induction fuel with
  | zero => intro i; simp [waitTilSyncFrom]
  | succ n ih =>
    intro i
    cases h : receive i with
    | error e =>
      have := ih (i + 1)
      simp [waitTilSyncFrom, h]
      omega
    | ok m =>
      by_cases hm : m = FMsgType.Sync
      · simp only [waitTilSyncFrom, h, hm, if_pos]
        omega
      · have := ih (i + 1)
        simp only [waitTilSyncFrom, h, hm, if_neg, ite_false]
        omega

/-- If the j-th receive yields a Sync, the drain loop started at or before j
stops no later than attempt j + 1. -/
theorem waitTilSyncFrom_sync (receive : Nat → Except String FMsgType) (j : Nat)
    (hj : receive j = Except.ok FMsgType.Sync) :
    ∀ fuel i, i ≤ j → waitTilSyncFrom receive i fuel ≤ j + 1 := by
  intro fuel
  induction fuel with
  | zero => intro i hi; simp [waitTilSyncFrom]; omega
  | succ n ih =>
    intro i hi
    rcases Nat.lt_or_ge i j with hlt | hge
    · cases h : receive i with
      | error e =>
        simpa [waitTilSyncFrom, h] using ih (i + 1) hlt
      | ok m =>
        by_cases hm : m = FMsgType.Sync
        · simp [waitTilSyncFrom, h, hm]
          omega
        · simpa [waitTilSyncFrom, h, hm] using ih (i + 1) hlt
    · have hij : i = j := Nat.le_antisymm hi hge
      subst hij
      simp [waitTilSyncFrom, hj]

/-- If no receive below the budget ever yields a message, the drain loop
consumes the whole budget, one attempt per error, and still terminates. -/
theorem waitTilSyncFrom_all_error (receive : Nat → Except String FMsgType)
    (h : ∀ k, k < 10 → ∀ m, receive k ≠ Except.ok m) :
    ∀ fuel i, i + fuel = 10 → waitTilSyncFrom receive i fuel = 10 := by
  intro fuel
  induction fuel with
  | zero => intro i hi; simpa [waitTilSyncFrom] using hi
  | succ n ih =>
    intro i hi
    have hi10 : i < 10 := by omega
    cases hr : receive i with
    | error e =>
      simpa [waitTilSyncFrom, hr] using ih (i + 1) (by omega)
    | ok m => exact absurd hr (h i hi10 m)

/-- countP of a replicated element the predicate rejects is zero. -/
theorem countP_replicate_of_neg {α : Type} (p : α → Bool) (a : α)
    (h : p a = false) : ∀ n, (List.replicate n a).countP p = 0 := by
  intro n
  induction n with
  | zero => simp
  | succ k ih => simp [List.replicate_succ, List.countP_cons, h, ih]

/-- An unresolved backend type name makes unmarshalB fail with the naming
error. -/
theorem unmarshalB_error_of_unresolved (p : RawPayload)
    (h : resolveB p.typeName = none) :
    unmarshalB p = Except.error (ParseError.unknownTypeB p.typeName) := by
  simp [unmarshalB, h]

/-- An unresolved frontend type name makes unmarshalF fail with the naming
error. -/
theorem unmarshalF_error_of_unresolved (p : RawPayload)
    (h : resolveF p.typeName = none) :
    unmarshalF p = Except.error (ParseError.unknownTypeF p.typeName) := by
  simp [unmarshalF, h]

/-- C1: every Script produced by readScript, for every input, begins with
the fixed unauthenticated-handshake step list
pgmock.AcceptUnauthenticatedConnRequestSteps, and the steps parsed from the
file only ever follow that fixed head: the Steps list is exactly the
handshake steps followed by the steps contributed by the input lines. -/
theorem C1_handshake_head (lines : List RawLine) (s : Script)
    (h : readScript lines = Except.ok s) :
    s.Steps = AcceptUnauthenticatedConnRequestSteps ++ stepsOfLines lines :=
  (readScript_ok_steps lines s h).1

/-- Witness for C1 at a concrete one-line script. -/
theorem C1_handshake_head_witness :
    (Script.mk (AcceptUnauthenticatedConnRequestSteps ++
        [Step.expect ⟨FMsgType.Sync, ⟨"Sync", none⟩⟩])).Steps
      = AcceptUnauthenticatedConnRequestSteps ++
          stepsOfLines [RawLine.tagged 'F' ⟨"Sync", none⟩] :=
  C1_handshake_head [RawLine.tagged 'F' ⟨"Sync", none⟩] _ (by rfl)

/-- C2: when every line parses, readScript produces exactly the handshake
steps followed by the steps of the lines in input order; a B line whose
Type resolves (and whose payload decodes) contributes exactly one
SendMessage step of the decoded message, an F line whose Type resolves
exactly one ExpectMessage step; in particular the ready-for-query B line
yields one Send step of a ready-for-query message and the sync F line one
Expect step of a sync message. -/
theorem C2_one_step_per_line (lines : List RawLine)
    (h : ∀ l ∈ lines, lineOk l = true) :
    readScript lines
      = Except.ok ⟨AcceptUnauthenticatedConnRequestSteps ++ stepsOfLines lines⟩
    ∧ (∀ p ty, resolveB p.typeName = some ty → p.fullDecodeError = none →
         lineSteps (RawLine.tagged 'B' p) = [Step.send ⟨ty, p⟩])
    ∧ (∀ p ty, resolveF p.typeName = some ty →
         lineSteps (RawLine.tagged 'F' p) = [Step.expect ⟨ty, p⟩])
    ∧ readScript [RawLine.tagged 'B' ⟨"ReadyForQuery", none⟩]
        = Except.ok ⟨AcceptUnauthenticatedConnRequestSteps ++
            [Step.send ⟨BMsgType.ReadyForQuery, ⟨"ReadyForQuery", none⟩⟩]⟩
    ∧ readScript [RawLine.tagged 'F' ⟨"Sync", none⟩]
        = Except.ok ⟨AcceptUnauthenticatedConnRequestSteps ++
            [Step.expect ⟨FMsgType.Sync, ⟨"Sync", none⟩⟩]⟩ := by
  refine ⟨readScript_ok_of_all lines h, ?_, ?_, by rfl, by rfl⟩
  · intro p ty hres hdec
    simp [lineSteps, unmarshalB, hres, hdec]
  · intro p ty hres
    simp [lineSteps, unmarshalF, hres]

/-- Witness for C2 at a concrete two-line script. -/
theorem C2_one_step_per_line_witness :
    readScript [RawLine.tagged 'B' ⟨"ReadyForQuery", none⟩,
        RawLine.tagged 'F' ⟨"Sync", none⟩]
      = Except.ok ⟨AcceptUnauthenticatedConnRequestSteps ++
          stepsOfLines [RawLine.tagged 'B' ⟨"ReadyForQuery", none⟩,
            RawLine.tagged 'F' ⟨"Sync", none⟩]⟩ :=
  (C2_one_step_per_line _ (by decide)).1

/-- C3: a script text containing a B line whose Type name is not in the
backend table fails to parse: when the lines before it all parse, the
result is exactly the naming error whose Go text carries the B side marker
and the offending name; whatever the surrounding lines are, no Script is
ever returned. The same holds for an F line against the frontend table. -/
theorem C3_unknown_type_aborts (p : RawPayload) :
    (resolveB p.typeName = none →
       (∀ pre post, (∀ l ∈ pre, lineOk l = true) →
          readScript (pre ++ RawLine.tagged 'B' p :: post)
            = Except.error (ParseError.unknownTypeB p.typeName))
       ∧ (∀ lines s, RawLine.tagged 'B' p ∈ lines →
            readScript lines ≠ Except.ok s)
       ∧ (ParseError.unknownTypeB p.typeName).message
           = "B: unknown type `" ++ p.typeName ++ "`")
    ∧ (resolveF p.typeName = none →
       (∀ pre post, (∀ l ∈ pre, lineOk l = true) →
          readScript (pre ++ RawLine.tagged 'F' p :: post)
            = Except.error (ParseError.unknownTypeF p.typeName))
       ∧ (∀ lines s, RawLine.tagged 'F' p ∈ lines →
            readScript lines ≠ Except.ok s)
       ∧ (ParseError.unknownTypeF p.typeName).message
           = "F: unknown type `" ++ p.typeName ++ "`") := by
  constructor
  · intro hres
    have hu : unmarshalB p = Except.error (ParseError.unknownTypeB p.typeName) :=
      unmarshalB_error_of_unresolved p hres
    refine ⟨?_, ?_, rfl⟩
    · intro pre post hpre
      rw [readScript, readScriptLoop_append_of_all pre _ _ hpre]
      simp [readScriptLoop, hu]
    · intro lines s hmem hok
      have := (readScript_ok_steps lines s hok).2 _ hmem
      simp [lineOk, hu] at this
  · intro hres
    have hu : unmarshalF p = Except.error (ParseError.unknownTypeF p.typeName) :=
      unmarshalF_error_of_unresolved p hres
    refine ⟨?_, ?_, rfl⟩
    · intro pre post hpre
      rw [readScript, readScriptLoop_append_of_all pre _ _ hpre]
      simp [readScriptLoop, hu]
    · intro lines s hmem hok
      have := (readScript_ok_steps lines s hok).2 _ hmem
      simp [lineOk, hu] at this

/-- Witness for C3 at the concrete line of the spec. -/
theorem C3_unknown_type_aborts_witness :
    readScript [RawLine.tagged 'B' ⟨"Bogus", none⟩]
      = Except.error (ParseError.unknownTypeB "Bogus") :=
  (((C3_unknown_type_aborts ⟨"Bogus", none⟩).1 (by decide)).1) [] [] (by simp)

/-- C4: when readScript succeeds and the script has no steps beyond the
fixed handshake, getScript reports EmptyScript while still returning the
built Script, whose Steps are exactly the handshake steps; when at least
one step came from the file, no empty condition is reported. -/
theorem C4_empty_script (lines : List RawLine) (s : Script)
    (h : readScript lines = Except.ok s) :
    (s.Steps.length ≤ AcceptUnauthenticatedConnRequestSteps.length →
       getScript lines = (some s, some SnapError.emptyScript)
       ∧ s.Steps = AcceptUnauthenticatedConnRequestSteps)
    ∧ (AcceptUnauthenticatedConnRequestSteps.length < s.Steps.length →
       getScript lines = (some s, none)) := by
  constructor
  · intro hle
    constructor
    · simp only [getScript, h]
      rw [if_pos (by omega)]
    · have hsteps := (readScript_ok_steps lines s h).1
      have hlen : (stepsOfLines lines).length = 0 := by
        have := congrArg List.length hsteps
        simp [List.length_append] at this
        omega
      rw [hsteps, List.length_eq_zero.1 hlen, List.append_nil]
  · intro hlt
    simp only [getScript, h]
    rw [if_neg (by omega)]

/-- Witness for C4 at the empty script text. -/
theorem C4_empty_script_witness :
    getScript []
      = (some ⟨AcceptUnauthenticatedConnRequestSteps⟩, some SnapError.emptyScript)
    ∧ (Script.mk AcceptUnauthenticatedConnRequestSteps).Steps
        = AcceptUnauthenticatedConnRequestSteps :=
  (C4_empty_script [] ⟨AcceptUnauthenticatedConnRequestSteps⟩ (by rfl)).1
    (by decide)

/-- C5: an F line whose Type name resolves never aborts the parse, whatever
the outcome of the full-payload decode: unmarshalF returns the (possibly
partially populated) message, the scanner appends it as an Expect step and
continues with the remaining lines; unmarshalF fails only on an unresolved
type name. -/
theorem C5_f_decode_error_tolerated (p : RawPayload) (ty : FMsgType) :
    (resolveF p.typeName = some ty →
       unmarshalF p = Except.ok ⟨ty, p⟩
       ∧ ∀ rest steps, readScriptLoop (RawLine.tagged 'F' p :: rest) steps
            = readScriptLoop rest (steps ++ [Step.expect ⟨ty, p⟩]))
    ∧ (∀ e, unmarshalF p = Except.error e →
       resolveF p.typeName = none ∧ e = ParseError.unknownTypeF p.typeName) := by
  constructor
  · intro hres
    refine ⟨by simp [unmarshalF, hres], ?_⟩
    intro rest steps
    simp [readScriptLoop, unmarshalF, hres]
  · intro e he
    cases hres : resolveF p.typeName with
    | none =>
      rw [unmarshalF_error_of_unresolved p hres] at he
      exact ⟨rfl, (Except.error.inj he).symm⟩
    | some ty2 => simp [unmarshalF, hres] at he

/-- Witness for C5 at a sync line whose payload decode fails. -/
theorem C5_f_decode_error_tolerated_witness :
    unmarshalF ⟨"Sync", some "decode failure"⟩
      = Except.ok ⟨FMsgType.Sync, ⟨"Sync", some "decode failure"⟩⟩ :=
  ((C5_f_decode_error_tolerated ⟨"Sync", some "decode failure"⟩ FMsgType.Sync).1
    (by decide)).1

/-- C6: a B line whose Type name resolves but whose full-payload decode
fails aborts the parse with exactly the json.Unmarshal error: unmarshalB
propagates it, readScript returns it once the lines before the bad line
have parsed, and no line list containing the bad line ever yields a
Script. -/
theorem C6_b_decode_error_aborts (p : RawPayload) (ty : BMsgType) (e : String)
    (hres : resolveB p.typeName = some ty) (hdec : p.fullDecodeError = some e) :
    unmarshalB p = Except.error (ParseError.jsonDecode e)
    ∧ (∀ pre post, (∀ l ∈ pre, lineOk l = true) →
         readScript (pre ++ RawLine.tagged 'B' p :: post)
           = Except.error (ParseError.jsonDecode e))
    ∧ (∀ lines s, RawLine.tagged 'B' p ∈ lines →
         readScript lines ≠ Except.ok s) := by
  have hu : unmarshalB p = Except.error (ParseError.jsonDecode e) := by
    simp [unmarshalB, hres, hdec]
  refine ⟨hu, ?_, ?_⟩
  · intro pre post hpre
    rw [readScript, readScriptLoop_append_of_all pre _ _ hpre]
    simp [readScriptLoop, hu]
  · intro lines s hmem hok
    have := (readScript_ok_steps lines s hok).2 _ hmem
    simp [lineOk, hu] at this

/-- Witness for C6 at a data-row line with a failing payload decode. -/
theorem C6_b_decode_error_aborts_witness :
    readScript [RawLine.tagged 'B' ⟨"DataRow", some "bad field"⟩]
      = Except.error (ParseError.jsonDecode "bad field") :=
  ((C6_b_decode_error_aborts ⟨"DataRow", some "bad field"⟩ BMsgType.DataRow
      "bad field" (by decide) rfl).2.1) [] [] (by simp)

/-- C7: when the script run fails, the trace is exactly the drain receives
followed by the first error-response / ready-for-query pair (message text
"pgsnap: diff:" plus a newline plus the error), then unconditionally the
second pair (the bare error text), then the closing events; the closing
events contain no send and no receive, so exactly four messages (the two
pairs) are sent, and on a TCP connection the closing events are the
no-linger force-close preparation, the error notification and the deferred
close, all strictly after both pairs. -/
theorem C7_recovery_sends (env : Env) (err : String)
    (ha : env.acceptErr = none) (hd : env.deadlineErr = none)
    (hr : env.runErr = some err) :
    acceptConnForScrpt env
      = List.replicate (waitTilSync env.receive) DriverEvent.recv
          ++ [DriverEvent.sendErrorResponse "ERROR" "ERROR"
                ("pgsnap: diff:\n" ++ err),
              DriverEvent.sendReadyForQuery 'I',
              DriverEvent.sendErrorResponse "ERROR" "ERROR" err,
              DriverEvent.sendReadyForQuery 'I']
          ++ closingEvents env err
    ∧ (∀ ev ∈ closingEvents env err,
         isSendEvent ev = false ∧ ev ≠ DriverEvent.recv)
    ∧ (env.connIsTCP = true →
         closingEvents env err
           = [DriverEvent.setLinger0, DriverEvent.notifyErr err,
              DriverEvent.closeConn])
    ∧ (acceptConnForScrpt env).countP isSendEvent = 4 := by
  have htrace : acceptConnForScrpt env
      = List.replicate (waitTilSync env.receive) DriverEvent.recv
          ++ [DriverEvent.sendErrorResponse "ERROR" "ERROR"
                ("pgsnap: diff:\n" ++ err),
              DriverEvent.sendReadyForQuery 'I',
              DriverEvent.sendErrorResponse "ERROR" "ERROR" err,
              DriverEvent.sendReadyForQuery 'I']
          ++ closingEvents env err := by
    simp [acceptConnForScrpt, ha, hd, hr, sendErrorEvents]
  refine ⟨htrace, ?_, ?_, ?_⟩
  · intro ev hev
    cases htcp : env.connIsTCP with
    | true =>
      simp [closingEvents, htcp] at hev
      rcases hev with h | h | h <;> subst h <;> simp [isSendEvent]
    | false =>
      simp [closingEvents, htcp] at hev
      rcases hev with h | h <;> subst h <;> simp [isSendEvent]
  · intro htcp
    simp [closingEvents, htcp]
  · rw [htrace]
    rw [List.countP_append, List.countP_append,
      countP_replicate_of_neg isSendEvent DriverEvent.recv rfl]
    cases htcp : env.connIsTCP <;>
      simp [closingEvents, htcp, List.countP_cons, isSendEvent]

/-- Witness for C7 at a concrete failing environment. -/
theorem C7_recovery_sends_witness :
    (acceptConnForScrpt
        ⟨none, none, some "diff", fun _ => Except.ok FMsgType.Sync, true⟩).countP
      isSendEvent = 4 :=
  (C7_recovery_sends
    ⟨none, none, some "diff", fun _ => Except.ok FMsgType.Sync, true⟩
    "diff" rfl rfl rfl).2.2.2

/-- C8: the drain loop waitTilSync performs at most 10 receive attempts and
terminates (it computes a total attempt count); it stops no later than one
attempt past the first Sync it receives, and when every receive within the
budget fails it still runs the full 10 attempts, each error merely
consuming one attempt of the budget. -/
theorem C8_drain_bounded (receive : Nat → Except String FMsgType) :
    waitTilSync receive ≤ 10
    ∧ (∀ j, receive j = Except.ok FMsgType.Sync →
        waitTilSync receive ≤ j + 1)
    ∧ ((∀ k, k < 10 → ∀ m, receive k ≠ Except.ok m) →
        waitTilSync receive = 10) := by
  refine ⟨?_, ?_, ?_⟩
  · simpa using waitTilSyncFrom_le receive 10 0
  · intro j hj
    exact waitTilSyncFrom_sync receive j hj 10 0 (Nat.zero_le j)
  · intro h
    exact waitTilSyncFrom_all_error receive h 10 0 rfl

/-- Witness for C8: an all-error client uses the whole budget, an immediate
Sync stops after one attempt. -/
theorem C8_drain_bounded_witness :
    waitTilSync (fun _ => Except.error "boom") = 10
    ∧ waitTilSync (fun _ => Except.ok FMsgType.Sync) ≤ 1 :=
  ⟨(C8_drain_bounded (fun _ => Except.error "boom")).2.2
      (fun _ _ _ h => Except.noConfusion h),
   (C8_drain_bounded (fun _ => Except.ok FMsgType.Sync)).2.1 0 rfl⟩

/-- C9 counterexample: with a failing script run on a connection that is
not a *net.TCPConn, the type assertion panics before any channel write, so
this run emits no notification at all instead of exactly one. -/
theorem C9_counterexample_no_notification :
    ¬ ((acceptConnForScrpt
        ⟨none, none, some "mismatch", fun _ => Except.error "recv",
         false⟩).countP isNotification = 1) := by
  decide

/-- C9 (amended): provided the accepted connection is a *net.TCPConn — the
unstated precondition of the recovery path — every run of
acceptConnForScrpt writes exactly one value across the two notification
channels: one on done when the script ran to completion, otherwise one on
the error channel, never both and never more than one. -/
theorem C9_exactly_one_notification (env : Env)
    (htcp : env.connIsTCP = true) :
    (acceptConnForScrpt env).countP isNotification = 1 := by
  unfold acceptConnForScrpt
  cases ha : env.acceptErr with
  | some e => simp [isNotification, List.countP_cons]
  | none =>
    cases hd : env.deadlineErr with
    | some e => simp [isNotification, List.countP_cons]
    | none =>
      cases hr : env.runErr with
      | none => simp [isNotification, List.countP_cons]
      | some err =>
        simp [List.countP_append, sendErrorEvents, closingEvents, htcp,
          List.countP_cons, isNotification,
          countP_replicate_of_neg isNotification DriverEvent.recv rfl]

/-- Witness for the amended C9 at a concrete successful run. -/
theorem C9_exactly_one_notification_witness :
    (acceptConnForScrpt
        ⟨none, none, none, fun _ => Except.error "recv", true⟩).countP
      isNotification = 1 :=
  C9_exactly_one_notification
    ⟨none, none, none, fun _ => Except.error "recv", true⟩ rfl

/-- C10: on the failure path the connection is unconditionally downcast to
a TCP connection: when the accepted connection is not a *net.TCPConn the
trace reaches the type-assertion panic and neither the no-linger
force-close nor the error notification ever happens, while on a TCP
connection the no-linger close preparation runs and no panic occurs; the
recovery path is thus only safe under the unstated precondition that the
listener yields TCP connections. -/
theorem C10_linger_requires_tcp (env : Env) (err : String)
    (ha : env.acceptErr = none) (hd : env.deadlineErr = none)
    (hr : env.runErr = some err) :
    (env.connIsTCP = false →
       DriverEvent.panicTCPAssert ∈ acceptConnForScrpt env
       ∧ DriverEvent.setLinger0 ∉ acceptConnForScrpt env
       ∧ DriverEvent.notifyErr err ∉ acceptConnForScrpt env)
    ∧ (env.connIsTCP = true →
       DriverEvent.setLinger0 ∈ acceptConnForScrpt env
       ∧ DriverEvent.panicTCPAssert ∉ acceptConnForScrpt env) := by
  constructor
  · intro htcp
    refine ⟨?_, ?_, ?_⟩ <;>
      simp [acceptConnForScrpt, ha, hd, hr, sendErrorEvents, closingEvents,
        htcp, List.mem_append, List.mem_replicate]
  · intro htcp
    refine ⟨?_, ?_⟩ <;>
      simp [acceptConnForScrpt, ha, hd, hr, sendErrorEvents, closingEvents,
        htcp, List.mem_append, List.mem_replicate]

/-- Witness for C10 at a concrete non-TCP environment. -/
theorem C10_linger_requires_tcp_witness :
    DriverEvent.panicTCPAssert ∈
      acceptConnForScrpt
        ⟨none, none, some "diff", fun _ => Except.ok FMsgType.Sync, false⟩ :=
  ((C10_linger_requires_tcp
      ⟨none, none, some "diff", fun _ => Except.ok FMsgType.Sync, false⟩
      "diff" rfl rfl rfl).1 rfl).1

end Pgsnap
